import Mathlib

/-!
Shallow embedding of the kpal core (LEB-EPFL/kpal) for specification checking.

Embedded source files:
* `src/leb/kpal/buffer.py`      — `_bytes_needed`, `BufferedArray` (`__new__`,
  `close`, `put`, `_validate`) and the `__main__` demonstration scenario.
* `src/leb/kpal/core/buffer.py` — `RingBuffer` (`__new__`, `put`).
* `src/leb/kpal/core/raw_image.py` — `RawImage`.
* `src/leb/kpal/core/pixel_format.py` — `PixelFormat`.
* `src/leb/kpal/core.py`        — `event_handler`, `shutdown_handler`,
  `Core.resolve_names`, `Core.build_peripheral`, `Core.get_attribute`,
  `Core.set_attribute`.
* `src/leb/kpal/peripherals.py` — `Peripheral.build_args`.

Python exceptions are modelled with `Except String`; a raising call site that
leaves the object unchanged returns the unchanged state next to the error.
Machine integers stay `Int`/`Nat` (numpy int16 wrap-around is irrelevant to the
claims: all scenario values are tiny).
-/

/-- A numpy dtype, reduced to what the embedded code inspects: its identity
(for the `arr.dtype != self.dtype` comparison) and its `itemsize` in bytes. -/
inductive Dtype where
  | int8
  | int16
  | int32
  | int64
  | float32
  | float64
deriving DecidableEq, Repr

/-- Models `np.dtype(...).itemsize`, in bytes. -/
def Dtype.itemsize : Dtype → Nat
  | .int8 => 1
  | .int16 => 2
  | .int32 => 4
  | .int64 => 8
  | .float32 => 4
  | .float64 => 8

theorem Dtype.itemsize_pos (d : Dtype) : 0 < d.itemsize := by
  cases d <;> decide

/-- A one-dimensional numpy array handed to `BufferedArray.put`: its dtype and
its flattened element values (`np.ravel` of the data). -/
structure NpArray where
  dtype : Dtype
  data : List Int
deriving DecidableEq, Repr

/-- Models `arr.size`: the number of elements. -/
def NpArray.size (a : NpArray) : Nat := a.data.length

/-- Models `arr.nbytes = arr.size * arr.dtype.itemsize`. -/
def NpArray.nbytes (a : NpArray) : Nat := a.size * a.dtype.itemsize

/-- State of a `multiprocessing.shared_memory.SharedMemory` handle: whether the
local mapping is open and whether the named segment has been unlinked.
The CPython `SharedMemory.close` is guarded and may be called repeatedly;
`unlink` raises `FileNotFoundError` once the segment is already gone. -/
structure ShmState where
  mapped : Bool
  unlinked : Bool
deriving DecidableEq, Repr

/-- Models `shm.close()`: drops the local mapping; safe to call again. -/
def shmClose (s : ShmState) : ShmState := { s with mapped := false }

/-- Models `shm.unlink()`: removes the named segment, raising `FileNotFoundError`
when it was already unlinked. -/
def shmUnlink (s : ShmState) : Except String ShmState :=
  if s.unlinked then .error "FileNotFoundError"
  else .ok { s with unlinked := true }

/-- Models `buffer.BufferedArray`: the shared circular buffer. `data` is the element
view of the shared region (`size` slots of `dtype`), `write_idx` is
`_write_idx`, `writeable` is `_writeable` (true for the creating handle),
`shm` is `_shm`. -/
structure BufferedArray where
  dtype : Dtype
  data : List Int
  write_idx : Nat
  writeable : Bool
  shm : ShmState
deriving DecidableEq, Repr

/-- Models `self.size`: number of element slots in the buffer. -/
def BufferedArray.size (b : BufferedArray) : Nat := b.data.length

/-- Models `self.nbytes`: the byte length of the whole region. -/
def BufferedArray.nbytes (b : BufferedArray) : Nat :=
  b.data.length * b.dtype.itemsize

/-- Models `buffer._bytes_needed`: bytes holding an integer number of items within
`capacity`; raises `ValueError` when the capacity is below one item.
(`BufferedArray.__new__` normalises `dtype` with `np.dtype` before the call,
so `dtype.itemsize` is well defined here.) -/
def _bytes_needed (capacity : Nat) (dtype : Dtype) : Except String Nat :=
  if capacity < dtype.itemsize then
    .error "Requested buffer capacity is smaller than the size of an item"
  else
    .ok ((capacity / dtype.itemsize) * dtype.itemsize)

/-- Models `BufferedArray.__new__` with `create=True`: sizes the region via
`_bytes_needed`, creates the shared segment (zero-filled by the OS), views it
as `capacity // itemsize` slots and initialises `_write_idx = 0`,
`_writeable = create`. -/
def bufferedArrayNew (capacity : Nat) (create : Bool) (dtype : Dtype) :
    Except String BufferedArray :=
  match _bytes_needed capacity dtype with
  | .error e => .error e
  | .ok cap =>
    .ok { dtype := dtype
          data := List.replicate (cap / dtype.itemsize) 0
          write_idx := 0
          writeable := create
          shm := { mapped := true, unlinked := false } }

/-- Models `BufferedArray.close`: closes the shm view; the writeable handle also
unlinks, catching `FileNotFoundError` (already unlinked) and only logging. -/
def BufferedArray.close (b : BufferedArray) :
    Except String Unit × BufferedArray :=
  let shm1 := shmClose b.shm
  if b.writeable then
    match shmUnlink shm1 with
    | .ok shm2 => (.ok (), { b with shm := shm2 })
    | .error _ => (.ok (), { b with shm := shm1 })
  else
    (.ok (), { b with shm := shm1 })

/-- Models `BufferedArray._validate`: raises when the item has more bytes than the
buffer or a different dtype. -/
def BufferedArray._validate (b : BufferedArray) (arr : NpArray) :
    Except String Unit :=
  if b.nbytes < arr.nbytes then
    .error "Item is too large to put into the buffer"
  else if arr.dtype ≠ b.dtype then
    .error "dtypes of input array and BufferedArrays do not match"
  else
    .ok ()

/-- Python indexing into a sequence of length `size`: a negative index `i`
addresses `size + i`. -/
def pyIdx (size : Nat) (i : Int) : Nat :=
  if i < 0 then (size + i).toNat else i.toNat

/-- Models `list(range(a, b))` over the integers. -/
def intRange (a b : Int) : List Int :=
  (List.range (b - a).toNat).map (fun j => a + (j : Int))

/-- Models `self[indexes] = vals` with Python index semantics: write each value at
its (possibly negative) index in turn. -/
def writeAt (d : List Int) (size : Nat) (idxs vals : List Int) : List Int :=
  (idxs.zip vals).foldl (fun acc iv => acc.set (pyIdx size iv.1) iv.2) d

/-- Models `BufferedArray.put`: validates, computes `divmod(write_idx + n, size)`,
wraps through the negative-index list when the destination range crosses the
end of the buffer, writes, and advances `_write_idx`. An invalid item raises
before any state is touched, so the error branch returns `b` unchanged. -/
def BufferedArray.put (b : BufferedArray) (arr : NpArray) :
    Except String Unit × BufferedArray :=
  match b._validate arr with
  | .error e => (.error e, b)
  | .ok _ =>
    let size := b.data.length
    let quotient := (b.write_idx + arr.size) / size
    let md := (b.write_idx + arr.size) % size
    let current : Int :=
      if quotient > 0 then (b.write_idx : Int) - (size : Int)
      else (b.write_idx : Int)
    let next : Nat :=
      if quotient > 0 then md else b.write_idx + arr.size
    let data' :=
      if current < 0 then
        -- `self[indexes] = np.ravel(data)` with `indexes = range(current, next)`
        writeAt b.data size (intRange current next) arr.data
      else
        -- `self[current:next] = np.ravel(data)`: the same contiguous writes
        writeAt b.data size (intRange current next) arr.data
    (.ok (), { b with data := data', write_idx := next })

/-- Models `core/pixel_format.PixelFormat`. -/
inductive PixelFormat where
  | mono12p
  | mono16
deriving DecidableEq, Repr

/-- Models `PixelFormat.bits_per_pixel`. -/
def PixelFormat.bits_per_pixel : PixelFormat → Nat
  | .mono12p => 12
  | .mono16 => 16

/-- Modelled from the spec: the sized `RingBuffer` constructor taking a
capacity in images, an image shape and a `PixelFormat` is exercised by
`tests/unit/test_buffer.py` (`ring_buffer.buf.nbytes`,
`ValueError` for a 7×7 MONO12P image), but its implementation is not under
`src/`; `src/leb/kpal/core/buffer.py` only has the dtype-based constructor.
Following the spec: "computes the largest item-count ≤ capacity_bytes /
item_byte_length; fails with a SizingError if item_byte_length does not
divide evenly into whole bytes", the result is the byte length of the
allocated region, `capacity * (item_bits / 8)`. -/
def ringBufferCreateSized (capacity rows cols : Nat) (fmt : PixelFormat) :
    Except String Nat :=
  let itemBits := rows * cols * fmt.bits_per_pixel
  if itemBits % 8 ≠ 0 then
    .error "SizingError: item bit length is not whole-byte aligned"
  else
    .ok (capacity * (itemBits / 8))

/-- Models `core/raw_image.RawImage`: a 2-D array of pixel data with its format. -/
structure RawImage where
  data : List (List Int)
  pixel_format : PixelFormat
deriving DecidableEq, Repr

/-- Models `core/buffer.RingBuffer`: a `(capacity, *shape)` array; `slots` is the
first-axis view (`len(self) = capacity`), `write_idx` is `_write_idx`. -/
structure RingBuffer where
  slots : List (List (List Int))
  write_idx : Nat
deriving DecidableEq, Repr

/-- Models `RingBuffer.put`: `self[self._write_idx] = image.data`, then
`self._write_idx = (self._write_idx + 1) % len(self)`, and the method returns
that already-advanced `self._write_idx`. -/
def RingBuffer.put (b : RingBuffer) (image : RawImage) : RingBuffer × Nat :=
  let slots' := b.slots.set b.write_idx image.data
  let idx := (b.write_idx + 1) % b.slots.length
  ({ slots := slots', write_idx := idx }, idx)

/-- Models `peripherals.Value`: `bytes | float | int | str`. The float payload is
kept as an opaque bit pattern; no claim computes with it. -/
inductive Value where
  | vbytes (bs : List Nat)
  | vfloat (bits : Nat)
  | vint (i : Int)
  | vstr (s : String)
deriving DecidableEq, Repr

/-- A peripheral as `core.py` sees it: its attribute names and whether its
`asyncio.Lock` is currently held. -/
structure PeriphM where
  attrNames : List String
  lockHeld : Bool
deriving DecidableEq, Repr

/-- Models `self.peripherals.get(name)` over the registry association list. -/
def lookupP : List (String × PeriphM) → String → Option PeriphM
  | [], _ => none
  | (k, p) :: rest, n => if k = n then some p else lookupP rest n

/-- Replace the lock state of the peripheral registered under `n`. -/
def setLockL : List (String × PeriphM) → String → Bool → List (String × PeriphM)
  | [], _, _ => []
  | (k, p) :: rest, n, h =>
    (k, if k = n then { p with lockHeld := h } else p) :: setLockL rest n h

/-- Models `core.Core`: the peripheral registry. The event queue and worker thread
are modelled separately (`eventHandler` below). -/
structure CoreM where
  peripherals : List (String × PeriphM)
deriving DecidableEq, Repr

/-- Models `Core.resolve_names`: peripheral lookup, then optional attribute lookup;
raises `KPALPeripheralError` when either is missing. No lock is touched. -/
def CoreM.resolve_names (c : CoreM) (peripheral_name : String)
    (attribute_name : Option String) :
    Except String (PeriphM × Option String) :=
  match lookupP c.peripherals peripheral_name with
  | none => .error "Peripheral does not exist"
  | some p =>
    match attribute_name with
    | none => .ok (p, none)
    | some a =>
      if a ∈ p.attrNames then .ok (p, some a)
      else .error "Attribute does not exist for peripheral"

/-- Models `Core.get_attribute`: resolve, `await lock.acquire()`,
`try: await getter(...)` `finally: lock.release()`. The getter body is
arbitrary caller code, so its outcome is a parameter; either way the
`finally` puts the lock back before the call returns or raises. -/
def CoreM.get_attribute (c : CoreM) (peripheral_name attribute_name : String)
    (getterOutcome : Except String Value) : Except String Value × CoreM :=
  match c.resolve_names peripheral_name (some attribute_name) with
  | .error e => (.error e, c)
  | .ok _ =>
    let c1 : CoreM := ⟨setLockL c.peripherals peripheral_name true⟩
    let c2 : CoreM := ⟨setLockL c1.peripherals peripheral_name false⟩
    (getterOutcome, c2)

/-- Models `Core.set_attribute`: same shape as `get_attribute` with a setter body. -/
def CoreM.set_attribute (c : CoreM) (peripheral_name attribute_name : String)
    (_value : Value) (setterOutcome : Except String Unit) :
    Except String Unit × CoreM :=
  match c.resolve_names peripheral_name (some attribute_name) with
  | .error e => (.error e, c)
  | .ok _ =>
    let c1 : CoreM := ⟨setLockL c.peripherals peripheral_name true⟩
    let c2 : CoreM := ⟨setLockL c1.peripherals peripheral_name false⟩
    (setterOutcome, c2)

/-- Models `Core.build_peripheral`: rejects an existing name before anything else;
then `await peripheral_type.build(...)` (outcome a parameter — any raise
propagates before the registry assignment), and only on success
`self.peripherals[name] = peripheral` (dict insert appends a new key). -/
def CoreM.build_peripheral (c : CoreM) (name : String)
    (buildOutcome : Except String PeriphM) : Except String Unit × CoreM :=
  if (lookupP c.peripherals name).isSome then
    (.error "Cannot create peripheral because the name already exists", c)
  else
    match buildOutcome with
    | .error e => (.error e, c)
    | .ok p => (.ok (), ⟨c.peripherals ++ [(name, p)]⟩)

/-- Models `core.Event`: the worker recognises `Shutdown()`; every other event
instance falls to the wildcard arm. -/
inductive Event where
  | shutdown
  | other (tag : Nat)
deriving DecidableEq, Repr

/-- Models `core.event_handler` run against the queue contents, in submission
order: returns the non-`Shutdown` events it handled (logged and discarded,
in order), whether the loop terminated, and the events left unconsumed.
An empty queue blocks in `queue.get` — the loop has not terminated. -/
def eventHandler : List Event → List Event × Bool × List Event
  | [] => ([], false, [])
  | Event.shutdown :: rest => ([], true, rest)
  | Event.other t :: rest =>
    let r := eventHandler rest
    (Event.other t :: r.1, r.2.1, r.2.2)

/-- Models `core.shutdown_handler`: `event_queue.put_nowait(Shutdown())` then
`event_thread.join()` — the worker now runs over the pending events with the
single `Shutdown` appended, and join returns only if the loop terminated. -/
def shutdownHandler (pending : List Event) : List Event × Bool × List Event :=
  eventHandler (pending ++ [Event.shutdown])

/-- One class on the MRO of a peripheral type, as `Peripheral.build_args` reads
it: `__name__`, whether a `build` method exists (otherwise the
`AttributeError` branch logs and continues), and its parameter names in
signature order (unique within one signature, by the Python grammar). -/
structure KlassInfo where
  kname : String
  hasBuild : Bool
  buildParams : List String
deriving DecidableEq, Repr

/-- The comprehension filtering `self`, `args`, `kwargs` and `_` out of
`inspect.signature(klass.build).parameters`. -/
def filteredBuildParams (ps : List String) : List String :=
  ps.filter (fun k => !(["self", "args", "kwargs", "_"].contains k))

/-- Models `build_args.update(parameters)` on the key level: existing keys keep
their position, new keys are appended in order. -/
def updateKeys (acc ps : List String) : List String :=
  acc ++ ps.filter (fun k => !(acc.contains k))

/-- The `for klass in cls.__mro__` loop of `Peripheral.build_args`: stop at
the class named `Peripheral`, skip classes without `build`, collect duplicate
names into warnings (`logger.warning`) and merge the parameter keys. -/
def buildArgsLoop : List KlassInfo → List String → List (List String) →
    List String × List (List String)
  | [], acc, warns => (acc, warns)
  | k :: rest, acc, warns =>
    if k.kname = "Peripheral" then (acc, warns)
    else if k.hasBuild then
      let ps := filteredBuildParams k.buildParams
      let dups := ps.filter (fun p => acc.contains p)
      let warns2 := if dups.isEmpty then warns else warns ++ [dups]
      buildArgsLoop rest (updateKeys acc ps) warns2
    else
      buildArgsLoop rest acc warns

/-- Models `Peripheral.build_args` over the MRO of a type: returns the merged parameter
names and the duplicate-name warnings that were logged. Every exception path
inside the loop is caught (`except AttributeError`), so the call returns
normally — the `Except` layer records that no error escapes. -/
def build_args (mro : List KlassInfo) :
    Except String (List String × List (List String)) :=
  Except.ok (buildArgsLoop mro [] [])

instance {ε α : Type} [DecidableEq ε] [DecidableEq α] :
    DecidableEq (Except ε α) := fun x y =>
  match x, y with
  | .ok a, .ok b =>
    if h : a = b then .isTrue (by simp [h]) else .isFalse (by simp [h])
  | .error e, .error f =>
    if h : e = f then .isTrue (by simp [h]) else .isFalse (by simp [h])
  | .ok _, .error _ => .isFalse (by simp)
  | .error _, .ok _ => .isFalse (by simp)

/-! Concrete states of the demonstration scenario in the `__main__` block of
`buffer.py` (capacity 16 bytes, dtype int16, hence 8 slots), used by several
theorems below. -/

/-- Freshly created scenario buffer: 8 zeroed int16 slots, cursor 0. -/
def bufDemo : BufferedArray :=
  { dtype := Dtype.int16
    data := [0, 0, 0, 0, 0, 0, 0, 0]
    write_idx := 0
    writeable := true
    shm := { mapped := true, unlinked := false } }

/-- Scenario state after `arr.put(item1)` with `item1 = [1] * 5`. -/
def bufDemo1 : BufferedArray :=
  { bufDemo with data := [1, 1, 1, 1, 1, 0, 0, 0], write_idx := 5 }

/-- Scenario state after `arr.put(item2)` with `item2 = [2] * 4`. -/
def bufDemo2 : BufferedArray :=
  { bufDemo with data := [2, 1, 1, 1, 1, 2, 2, 2], write_idx := 1 }

/-- Scenario state after `arr.put(item3)` with `item3 = [3]`. -/
def bufDemo3 : BufferedArray :=
  { bufDemo with data := [2, 3, 1, 1, 1, 2, 2, 2], write_idx := 2 }

/-- C1: creating a 16-byte int16 buffer gives 8 zeroed slots with write
cursor 0; putting a 5-element item of value 1, then a 4-element item of
value 2, then a 1-element item of value 3 raises no error, produces exactly
the intermediate and final slot contents of the scenario
(`[1,1,1,1,1,0,0,0]`, then the wrapped `[2,1,1,1,1,2,2,2]`, then
`[2,3,1,1,1,2,2,2]`), and each put advances the write cursor by the element
count of the item modulo the capacity 8. -/
theorem c1_scenario_put_wraparound :
    bufferedArrayNew 16 true Dtype.int16 = .ok bufDemo ∧
    bufDemo.put ⟨Dtype.int16, [1, 1, 1, 1, 1]⟩ = (.ok (), bufDemo1) ∧
    bufDemo1.put ⟨Dtype.int16, [2, 2, 2, 2]⟩ = (.ok (), bufDemo2) ∧
    bufDemo2.put ⟨Dtype.int16, [3]⟩ = (.ok (), bufDemo3) ∧
    bufDemo1.write_idx = (bufDemo.write_idx + 5) % 8 ∧
    bufDemo2.write_idx = (bufDemo1.write_idx + 4) % 8 ∧
    bufDemo3.write_idx = (bufDemo2.write_idx + 1) % 8 := by
  decide

/-- C9: evaluation of `RingBuffer.put` at a failing input for the claim.
On a 3-slot buffer with write cursor 0, the image is stored at slot 0, but
the method returns `(0 + 1) % 3 = 1` — the post-advance cursor, not the
destination slot its own docstring promises. -/
theorem c9_put_returns_post_advance_cursor :
    RingBuffer.put { slots := [[[0]], [[0]], [[0]]], write_idx := 0 }
        { data := [[5]], pixel_format := PixelFormat.mono16 } =
      ({ slots := [[[5]], [[0]], [[0]]], write_idx := 1 }, 1) := by
  decide

/-- An MRO on which two mixins both declare the build parameter
`capacity`. -/
def dupMro : List KlassInfo :=
  [{ kname := "ProducerMixin", hasBuild := true,
     buildParams := ["self", "capacity"] },
   { kname := "SerialMixin", hasBuild := true,
     buildParams := ["self", "capacity", "url"] },
   { kname := "Peripheral", hasBuild := true,
     buildParams := ["cls", "args", "kwargs"] }]

/-- C4 counterexample: composing two capabilities that declare the same
build-parameter name does not fail — `build_args` returns normally with the
merged parameter set (one entry per name) and a logged duplicate warning, so
no CompositionError is raised at composition time. -/
theorem c4_counterexample_no_composition_error :
    build_args dupMro = .ok (["capacity", "url"], [["capacity"]]) := by
  decide

/-- C8: on every buffer handle, `close` returns without raising, a second
`close` on the resulting handle also returns without raising, the mapping is
released, and the underlying segment is unlinked exactly when the handle is
the owning (writer) handle or the segment was already unlinked. -/
theorem c8_close_idempotent (b : BufferedArray) :
    (b.close).1 = .ok () ∧
    ((b.close).2.close).1 = .ok () ∧
    (b.close).2.shm.mapped = false ∧
    (b.close).2.shm.unlinked = (b.writeable || b.shm.unlinked) := by
  obtain ⟨d, data, wi, w, m, u⟩ := b
  cases w <;> cases u <;>
    simp [BufferedArray.close, shmClose, shmUnlink]

/-- C2: buffer construction sizing. For the dtype-based `BufferedArray`
(whose item byte length, a numpy `itemsize`, is always whole-byte aligned):
when the capacity holds at least one item, construction succeeds, the region
holds `capacity / itemsize` slots — the largest item count whose bytes fit —
and its byte length is exactly that item count times the item byte length;
when the capacity is below one item it fails with the sizing `ValueError`.
For the pixel-format-sized ring buffer (spec-modelled constructor): a
non-whole-byte-aligned item bit length fails with a SizingError, an aligned
one succeeds with byte length `capacity * item_bits / 8`. -/
theorem c2_construction_sizing :
    (∀ (capacity : Nat) (dtype : Dtype),
      (dtype.itemsize ≤ capacity →
        ∃ b, bufferedArrayNew capacity true dtype = .ok b ∧
          b.nbytes = capacity / dtype.itemsize * dtype.itemsize ∧
          b.size = capacity / dtype.itemsize ∧
          ∀ k : Nat, k * dtype.itemsize ≤ capacity → k ≤ b.size) ∧
      (capacity < dtype.itemsize →
        ∃ e, bufferedArrayNew capacity true dtype = .error e)) ∧
    (∀ (capacity rows cols : Nat) (fmt : PixelFormat),
      (rows * cols * fmt.bits_per_pixel % 8 = 0 →
        ringBufferCreateSized capacity rows cols fmt =
          .ok (capacity * (rows * cols * fmt.bits_per_pixel / 8))) ∧
      (rows * cols * fmt.bits_per_pixel % 8 ≠ 0 →
        ∃ e, ringBufferCreateSized capacity rows cols fmt = .error e)) := by
  constructor
  · intro capacity dtype
    have hpos := dtype.itemsize_pos
    constructor
    · intro h
      have hne : ¬ capacity < dtype.itemsize := not_lt.mpr h
      have heq : bufferedArrayNew capacity true dtype =
          .ok { dtype := dtype
                data := List.replicate
                  (capacity / dtype.itemsize * dtype.itemsize / dtype.itemsize) 0
                write_idx := 0
                writeable := true
                shm := { mapped := true, unlinked := false } } := by
        simp [bufferedArrayNew, _bytes_needed, if_neg hne]
      refine ⟨_, heq, ?_, ?_, ?_⟩
      · simp [BufferedArray.nbytes, Nat.mul_div_cancel _ hpos]
      · simp [BufferedArray.size, Nat.mul_div_cancel _ hpos]
      · intro k hk
        simp only [BufferedArray.size, List.length_replicate,
          Nat.mul_div_cancel _ hpos]
        exact (Nat.le_div_iff_mul_le hpos).mpr hk
    · intro h
      exact ⟨"Requested buffer capacity is smaller than the size of an item",
        by simp [bufferedArrayNew, _bytes_needed, if_pos h]⟩
  · intro capacity rows cols fmt
    constructor
    · intro h
      simp [ringBufferCreateSized, h]
    · intro h
      exact ⟨"SizingError: item bit length is not whole-byte aligned",
        by simp [ringBufferCreateSized, h]⟩

/-- Witness for C2 at the scenario geometry (16-byte int16 buffer), at an
undersized capacity (1 byte), and at the misaligned 7×7 MONO12P image of the
unit tests. -/
theorem c2_construction_sizing_witness :
    (Dtype.int16.itemsize ≤ 16 ∧
      ∃ b, bufferedArrayNew 16 true Dtype.int16 = .ok b ∧
        b.nbytes = 16 / Dtype.int16.itemsize * Dtype.int16.itemsize ∧
        b.size = 16 / Dtype.int16.itemsize ∧
        ∀ k : Nat, k * Dtype.int16.itemsize ≤ 16 → k ≤ b.size) ∧
    ((1 : Nat) < Dtype.int16.itemsize ∧
      ∃ e, bufferedArrayNew 1 true Dtype.int16 = .error e) ∧
    (7 * 7 * PixelFormat.mono12p.bits_per_pixel % 8 ≠ 0 ∧
      ∃ e, ringBufferCreateSized 3 7 7 PixelFormat.mono12p = .error e) :=
  ⟨⟨by decide, (c2_construction_sizing.1 16 Dtype.int16).1 (by decide)⟩,
   ⟨by decide, (c2_construction_sizing.1 1 Dtype.int16).2 (by decide)⟩,
   ⟨by decide, (c2_construction_sizing.2 3 7 7 PixelFormat.mono12p).2
      (by decide)⟩⟩

/-- C3 counterexample: on the freshly created scenario buffer (8 two-byte
slots), a 2-element int16 item has byte length 4, which exceeds one item
slot (2 bytes) — yet `put` succeeds instead of failing with a
ValidationError: the code only rejects items larger than the whole buffer. -/
theorem c3_counterexample_overslot_item_accepted :
    bufferedArrayNew 16 true Dtype.int16 = .ok bufDemo ∧
    NpArray.nbytes { dtype := Dtype.int16, data := [7, 7] } >
      Dtype.itemsize Dtype.int16 ∧
    (bufDemo.put { dtype := Dtype.int16, data := [7, 7] }).1 = .ok () := by
  decide

/-- C3 (amended): `put` fails with a ValidationError when the item byte
length exceeds the byte length of the whole buffer (not of one slot) or the
item dtype mismatches, and a failing `put` returns the buffer unchanged:
neither the write cursor nor the region is modified. -/
theorem c3_put_validation_failure_leaves_state (b : BufferedArray)
    (arr : NpArray) :
    (b.nbytes < arr.nbytes ∨ arr.dtype ≠ b.dtype →
      ∃ e, b.put arr = (.error e, b)) ∧
    ∀ e, (b.put arr).1 = .error e → (b.put arr).2 = b := by
  constructor
  · intro h
    by_cases h1 : b.nbytes < arr.nbytes
    · exact ⟨"Item is too large to put into the buffer",
        by simp [BufferedArray.put, BufferedArray._validate, if_pos h1]⟩
    · have h2 : arr.dtype ≠ b.dtype := h.resolve_left h1
      exact ⟨"dtypes of input array and BufferedArrays do not match",
        by simp [BufferedArray.put, BufferedArray._validate, if_neg h1, h2]⟩
  · intro e he
    unfold BufferedArray.put at he ⊢
    cases hv : b._validate arr with
    | error f => simp [hv]
    | ok u => rw [hv] at he; simp at he

/-- Witness for C3 at a concrete failing input: a 9-element int16 item (18
bytes) does not fit the 16-byte scenario buffer, so `put` raises and the
buffer state is returned unchanged. -/
theorem c3_put_validation_failure_witness :
    (bufDemo.nbytes <
        NpArray.nbytes { dtype := Dtype.int16, data := [9, 9, 9, 9, 9, 9, 9, 9, 9] } ∨
      NpArray.dtype { dtype := Dtype.int16, data := [9, 9, 9, 9, 9, 9, 9, 9, 9] } ≠
        bufDemo.dtype) ∧
    ∃ e, bufDemo.put { dtype := Dtype.int16, data := [9, 9, 9, 9, 9, 9, 9, 9, 9] } =
      (.error e, bufDemo) :=
  ⟨Or.inl (by decide),
   (c3_put_validation_failure_leaves_state bufDemo
      { dtype := Dtype.int16, data := [9, 9, 9, 9, 9, 9, 9, 9, 9] }).1
     (Or.inl (by decide))⟩

/-- C6: the background event worker consumes queued events in submission
order; with a queue of non-Shutdown events followed by the single Shutdown
that `shutdown_handler` enqueues, every earlier event is handled (logged and
discarded, in order, none dropped), the loop terminates on the Shutdown, and
nothing is left in the queue, so the join in `shutdown_handler` returns;
moreover the loop terminates exactly when a Shutdown event is dequeued. -/
theorem c6_worker_order_and_shutdown :
    (∀ pending : List Event, Event.shutdown ∉ pending →
      shutdownHandler pending = (pending, true, [])) ∧
    ∀ q : List Event, (eventHandler q).2.1 = true ↔ Event.shutdown ∈ q := by
  constructor
  · intro pending h
    induction pending with
    | nil => rfl
    | cons e rest ih =>
      match e with
      | Event.shutdown => exact absurd (List.mem_cons_self _ _) h
      | Event.other t =>
        have hrest : Event.shutdown ∉ rest := fun hm => h (List.mem_cons_of_mem _ hm)
        have h2 := ih hrest
        simp only [shutdownHandler] at h2
        simp only [shutdownHandler, List.cons_append, eventHandler,
          List.append_eq]
        rw [h2]
  · intro q
    induction q with
    | nil => simp [eventHandler]
    | cons e rest ih =>
      match e with
      | Event.shutdown => simp [eventHandler]
      | Event.other t => simp [eventHandler, ih]

/-- Witness for C6: two non-Shutdown events queued before shutdown are both
handled in order and the worker exits with an empty queue. -/
theorem c6_worker_order_and_shutdown_witness :
    Event.shutdown ∉ [Event.other 0, Event.other 1] ∧
    shutdownHandler [Event.other 0, Event.other 1] =
      ([Event.other 0, Event.other 1], true, []) :=
  ⟨by decide, c6_worker_order_and_shutdown.1 _ (by decide)⟩

/-- C7: `build_peripheral` with an already-registered name fails (the
DuplicateName `KPALPeripheralError`) and returns the registry unchanged;
and when the build pipeline raises, the error is surfaced to the caller
as-is and the peripheral is not inserted — the registry is identical before
and after the failing call. -/
theorem c7_build_peripheral_failure_leaves_registry (c : CoreM)
    (name : String) (br : Except String PeriphM) :
    ((lookupP c.peripherals name).isSome = true →
      (∃ e, (c.build_peripheral name br).1 = .error e) ∧
      (c.build_peripheral name br).2 = c) ∧
    ((lookupP c.peripherals name).isSome = false →
      ∀ e, br = .error e → c.build_peripheral name br = (.error e, c)) := by
  constructor
  · intro h
    refine ⟨⟨"Cannot create peripheral because the name already exists", ?_⟩, ?_⟩ <;>
      simp [CoreM.build_peripheral, h]
  · intro h e hbr
    simp [CoreM.build_peripheral, h, hbr]

/-- A one-peripheral registry used as a concrete core state. -/
def coreDemo : CoreM :=
  { peripherals := [("cam", { attrNames := ["exposure"], lockHeld := false })] }

/-- Witness for C7: rebuilding the registered name `cam` fails and leaves
the registry as it was; building a fresh name `laser` whose build pipeline
raises surfaces the error and inserts nothing. -/
theorem c7_build_peripheral_failure_witness :
    ((lookupP coreDemo.peripherals "cam").isSome = true ∧
      (∃ e, (coreDemo.build_peripheral "cam"
        (.ok { attrNames := [], lockHeld := false })).1 = .error e) ∧
      (coreDemo.build_peripheral "cam"
        (.ok { attrNames := [], lockHeld := false })).2 = coreDemo) ∧
    ((lookupP coreDemo.peripherals "laser").isSome = false ∧
      coreDemo.build_peripheral "laser" (.error "BuildFailure") =
        (.error "BuildFailure", coreDemo)) :=
  ⟨⟨by decide,
    (c7_build_peripheral_failure_leaves_registry coreDemo "cam"
      (.ok { attrNames := [], lockHeld := false })).1 (by decide)⟩,
   ⟨by decide,
    (c7_build_peripheral_failure_leaves_registry coreDemo "laser"
      (.error "BuildFailure")).2 (by decide) "BuildFailure" rfl⟩⟩

/-- Looking up a name after setting its lock state returns the same
peripheral with the lock state replaced. -/
theorem lookupP_setLockL (l : List (String × PeriphM)) (n : String)
    (h : Bool) :
    lookupP (setLockL l n h) n =
      (lookupP l n).map (fun p => { p with lockHeld := h }) := by
  induction l with
  | nil => rfl
  | cons kp rest ih =>
    obtain ⟨k, p⟩ := kp
    by_cases hk : k = n
    · subst hk
      simp [setLockL, lookupP]
    · simp [setLockL, lookupP, hk, ih]

/-- The state returned by `get_attribute` is either the untouched core (a
resolution failure happens before the lock is touched) or the core after
acquire-then-release on the addressed peripheral. -/
theorem get_attribute_snd (c : CoreM) (pn an : String)
    (g : Except String Value) :
    (c.get_attribute pn an g).2 = c ∨
    (c.get_attribute pn an g).2 =
      ⟨setLockL (setLockL c.peripherals pn true) pn false⟩ := by
  unfold CoreM.get_attribute
  cases c.resolve_names pn (some an) <;> simp

/-- The state returned by `set_attribute` is either the untouched core or
the core after acquire-then-release on the addressed peripheral. -/
theorem set_attribute_snd (c : CoreM) (pn an : String) (v : Value)
    (s : Except String Unit) :
    (c.set_attribute pn an v s).2 = c ∨
    (c.set_attribute pn an v s).2 =
      ⟨setLockL (setLockL c.peripherals pn true) pn false⟩ := by
  unfold CoreM.set_attribute
  cases c.resolve_names pn (some an) <;> simp

/-- C5: for every core state whose addressed peripheral does not start with
its lock held, and every getter or setter body outcome (success or raise),
after `get_attribute` or `set_attribute` returns or raises the lock of that
peripheral is not held: the `finally` releases it on every exit path, and
paths failing before acquisition never touch it. -/
theorem c5_lock_released_on_every_exit (c : CoreM) (pn an : String)
    (g : Except String Value) (v : Value) (s : Except String Unit)
    (h0 : ∀ p, lookupP c.peripherals pn = some p → p.lockHeld = false) :
    (∀ p, lookupP ((c.get_attribute pn an g).2).peripherals pn = some p →
      p.lockHeld = false) ∧
    (∀ p, lookupP ((c.set_attribute pn an v s).2).peripherals pn = some p →
      p.lockHeld = false) := by
  constructor
  · intro p hp
    rcases get_attribute_snd c pn an g with h | h
    · rw [h] at hp
      exact h0 p hp
    · rw [h] at hp
      rw [lookupP_setLockL] at hp
      rcases Option.map_eq_some'.mp hp with ⟨q, _, hq⟩
      rw [← hq]
  · intro p hp
    rcases set_attribute_snd c pn an v s with h | h
    · rw [h] at hp
      exact h0 p hp
    · rw [h] at hp
      rw [lookupP_setLockL] at hp
      rcases Option.map_eq_some'.mp hp with ⟨q, _, hq⟩
      rw [← hq]

/-- Witness for C5 on the one-peripheral registry: a successful getter and a
raising setter both leave the `cam` lock released. -/
theorem c5_lock_released_witness :
    (∀ p, lookupP coreDemo.peripherals "cam" = some p →
      p.lockHeld = false) ∧
    (∀ p, lookupP ((coreDemo.get_attribute "cam" "exposure"
        (.ok (Value.vint 42))).2).peripherals "cam" = some p →
      p.lockHeld = false) ∧
    (∀ p, lookupP ((coreDemo.set_attribute "cam" "exposure" (Value.vint 42)
        (.error "transport failure")).2).peripherals "cam" = some p →
      p.lockHeld = false) := by
  have h0 : ∀ p, lookupP coreDemo.peripherals "cam" = some p →
      p.lockHeld = false := by
    intro p hp
    simp [coreDemo, lookupP] at hp
    subst hp
    rfl
  have h := c5_lock_released_on_every_exit coreDemo "cam" "exposure"
    (.ok (Value.vint 42)) (Value.vint 42) (.error "transport failure") h0
  exact ⟨h0, h.1, h.2⟩

/-- Merging parameter keys preserves distinctness: existing keys are kept
and only fresh keys are appended. -/
theorem updateKeys_nodup (acc ps : List String) (ha : acc.Nodup)
    (hp : ps.Nodup) : (updateKeys acc ps).Nodup := by
  unfold updateKeys
  refine List.Nodup.append ha (hp.filter _) ?_
  intro a haacc hafil
  have hcon := List.of_mem_filter hafil
  simp at hcon
  exact hcon haacc

/-- Every invariant of the `build_args` loop: starting from a distinct
accumulator and warnings that are all nonempty duplicate lists, the loop
returns a distinct merged key list and nonempty warnings. -/
theorem buildArgsLoop_nodup_warns (mro : List KlassInfo) :
    ∀ (acc : List String) (warns : List (List String)),
      (∀ k ∈ mro, k.buildParams.Nodup) → acc.Nodup →
      (∀ d ∈ warns, d ≠ []) →
      (buildArgsLoop mro acc warns).1.Nodup ∧
      ∀ d ∈ (buildArgsLoop mro acc warns).2, d ≠ [] := by
  induction mro with
  | nil =>
    intro acc warns _ ha hw
    exact ⟨ha, hw⟩
  | cons k rest ih =>
    intro acc warns hk ha hw
    have hkrest : ∀ k' ∈ rest, k'.buildParams.Nodup :=
      fun k' hm => hk k' (List.mem_cons_of_mem _ hm)
    have hknd : k.buildParams.Nodup := hk k (List.mem_cons_self _ _)
    by_cases h1 : k.kname = "Peripheral"
    · simp only [buildArgsLoop, if_pos h1]
      exact ⟨ha, hw⟩
    · by_cases h2 : k.hasBuild = true
      · simp only [buildArgsLoop, if_neg h1, h2, if_true]
        refine ih _ _ hkrest
          (updateKeys_nodup _ _ ha (hknd.filter _)) ?_
        by_cases h4 :
            ((filteredBuildParams k.buildParams).filter
              (fun p => acc.contains p)).isEmpty = true
        · simp only [h4, if_true]
          exact hw
        · simp only [h4, if_false, Bool.false_eq_true]
          intro d hd
          rcases List.mem_append.mp hd with hd | hd
          · exact hw d hd
          · have hdd : d =
                (filteredBuildParams k.buildParams).filter
                  (fun p => acc.contains p) := by
              simpa using hd
            rw [hdd]
            intro hnil
            rw [hnil] at h4
            simp at h4
      · have h2f : k.hasBuild = false := by
          cases hh : k.hasBuild
          · rfl
          · exact absurd hh h2
        simp only [buildArgsLoop, if_neg h1, h2f, Bool.false_eq_true,
          if_false]
        exact ih _ _ hkrest ha hw

/-- C4 (amended): composing two capabilities that declare the same
build-parameter name does not fail at composition time — `build_args`
always returns normally; the duplicate names are surfaced through a logged
warning (every recorded warning is a nonempty duplicate list) and the
merged parameter set holds each name once, the entry of the class that is
later in the MRO having overwritten the earlier one. -/
theorem c4_build_args_merges_with_warning (mro : List KlassInfo)
    (hsig : ∀ k ∈ mro, k.buildParams.Nodup) :
    ∃ args warns, build_args mro = .ok (args, warns) ∧
      args.Nodup ∧ ∀ d ∈ warns, d ≠ [] := by
  have h := buildArgsLoop_nodup_warns mro [] [] hsig List.nodup_nil
    (fun d hd => absurd hd (List.not_mem_nil d))
  exact ⟨(buildArgsLoop mro [] []).1, (buildArgsLoop mro [] []).2,
    by simp [build_args], h.1, h.2⟩

/-- Witness for C4 on the duplicate-parameter MRO: the composition returns
normally with a distinct merged set and nonempty warnings. -/
theorem c4_build_args_merges_witness :
    (∀ k ∈ dupMro, k.buildParams.Nodup) ∧
    ∃ args warns, build_args dupMro = .ok (args, warns) ∧
      args.Nodup ∧ ∀ d ∈ warns, d ≠ [] :=
  ⟨by decide, c4_build_args_merges_with_warning dupMro (by decide)⟩

/-- Writing values at indexes never changes the length of the region. -/
theorem writeAt_length (idxs vals d : List Int) (size : Nat) :
    (writeAt d size idxs vals).length = d.length := by
  unfold writeAt
  generalize idxs.zip vals = l
  induction l generalizing d with
  | nil => rfl
  | cons iv rest ih =>
    simp only [List.foldl_cons]
    rw [ih, List.length_set]

/-- A `put` never changes the number of slots of the buffer, whether it
validates or raises. -/
theorem put_data_length (b : BufferedArray) (arr : NpArray) :
    (b.put arr).2.data.length = b.data.length := by
  unfold BufferedArray.put
  cases b._validate arr with
  | error e => rfl
  | ok u => simp [writeAt_length]

/-- A single `put` leaves the write cursor strictly below the slot count
whenever the buffer has at least one slot and the cursor starts in range. -/
theorem put_write_idx_lt (b : BufferedArray) (arr : NpArray)
    (hlen : 0 < b.data.length) (hwi : b.write_idx < b.data.length) :
    (b.put arr).2.write_idx < (b.put arr).2.data.length := by
  rw [put_data_length]
  unfold BufferedArray.put
  cases b._validate arr with
  | error e => exact hwi
  | ok u =>
    simp only []
    by_cases hq : (b.write_idx + arr.size) / b.data.length > 0
    · simp only [if_pos hq]
      exact Nat.mod_lt _ hlen
    · simp only [if_neg hq]
      have hq0 : (b.write_idx + arr.size) / b.data.length = 0 :=
        Nat.eq_zero_of_not_pos hq
      exact (Nat.div_eq_zero_iff hlen).mp hq0

/-- Folding a sequence of `put` calls over a buffer: the state threaded
through each call. -/
def BufferedArray.putSeq (b : BufferedArray) (items : List NpArray) :
    BufferedArray :=
  items.foldl (fun s a => (s.put a).2) b

/-- Folding a sequence of `RingBuffer.put` calls over a ring buffer. -/
def RingBuffer.putSeq (b : RingBuffer) (imgs : List RawImage) : RingBuffer :=
  imgs.foldl (fun s i => (s.put i).1) b

/-- C10: for both buffer implementations, starting from a buffer with at
least one slot and a write cursor inside `[0, capacity)`, any sequence of
puts (valid ones advance, invalid ones raise leaving the cursor untouched)
keeps the write cursor inside `[0, capacity)`: it never reaches the
capacity, and being a natural number it is never negative. -/
theorem c10_write_cursor_stays_in_range :
    (∀ (b : BufferedArray) (items : List NpArray),
      0 < b.data.length → b.write_idx < b.data.length →
      0 < (b.putSeq items).data.length ∧
      (b.putSeq items).write_idx < (b.putSeq items).data.length) ∧
    (∀ (rb : RingBuffer) (imgs : List RawImage),
      0 < rb.slots.length → rb.write_idx < rb.slots.length →
      0 < (rb.putSeq imgs).slots.length ∧
      (rb.putSeq imgs).write_idx < (rb.putSeq imgs).slots.length) := by
  constructor
  · intro b items
    induction items generalizing b with
    | nil =>
      intro hlen hwi
      exact ⟨hlen, hwi⟩
    | cons a rest ih =>
      intro hlen hwi
      have hstep := put_write_idx_lt b a hlen hwi
      have hsteplen : 0 < (b.put a).2.data.length := by
        rw [put_data_length]; exact hlen
      simpa [BufferedArray.putSeq] using ih ((b.put a).2) hsteplen hstep
  · intro rb imgs
    induction imgs generalizing rb with
    | nil =>
      intro hlen hwi
      exact ⟨hlen, hwi⟩
    | cons img rest ih =>
      intro hlen hwi
      have hsteplen : 0 < ((rb.put img).1).slots.length := by
        simp [RingBuffer.put]
        exact hlen
      have hstep : ((rb.put img).1).write_idx < ((rb.put img).1).slots.length := by
        simp [RingBuffer.put]
        exact Nat.mod_lt _ hlen
      simpa [RingBuffer.putSeq] using ih ((rb.put img).1) hsteplen hstep

/-- Witness for C10: the 16-byte scenario buffer survives the three scenario
puts plus an extra wrapping put, and a 3-slot ring buffer survives four
image puts, with the cursor staying in range. -/
theorem c10_write_cursor_witness :
    (0 < bufDemo.data.length ∧ bufDemo.write_idx < bufDemo.data.length ∧
      (bufDemo.putSeq
        [{ dtype := Dtype.int16, data := [1, 1, 1, 1, 1] },
         { dtype := Dtype.int16, data := [2, 2, 2, 2] },
         { dtype := Dtype.int16, data := [3] },
         { dtype := Dtype.int16, data := [4, 4, 4, 4, 4, 4, 4] }]).write_idx <
      (bufDemo.putSeq
        [{ dtype := Dtype.int16, data := [1, 1, 1, 1, 1] },
         { dtype := Dtype.int16, data := [2, 2, 2, 2] },
         { dtype := Dtype.int16, data := [3] },
         { dtype := Dtype.int16, data := [4, 4, 4, 4, 4, 4, 4] }]).data.length) ∧
    (0 < ([[[0]], [[0]], [[0]]] : List (List (List Int))).length ∧
      (RingBuffer.putSeq { slots := [[[0]], [[0]], [[0]]], write_idx := 0 }
        [{ data := [[1]], pixel_format := PixelFormat.mono16 },
         { data := [[2]], pixel_format := PixelFormat.mono16 },
         { data := [[3]], pixel_format := PixelFormat.mono16 },
         { data := [[4]], pixel_format := PixelFormat.mono16 }]).write_idx <
      (RingBuffer.putSeq { slots := [[[0]], [[0]], [[0]]], write_idx := 0 }
        [{ data := [[1]], pixel_format := PixelFormat.mono16 },
         { data := [[2]], pixel_format := PixelFormat.mono16 },
         { data := [[3]], pixel_format := PixelFormat.mono16 },
         { data := [[4]], pixel_format := PixelFormat.mono16 }]).slots.length) :=
  ⟨⟨by decide, by decide,
    (c10_write_cursor_stays_in_range.1 bufDemo
      [{ dtype := Dtype.int16, data := [1, 1, 1, 1, 1] },
       { dtype := Dtype.int16, data := [2, 2, 2, 2] },
       { dtype := Dtype.int16, data := [3] },
       { dtype := Dtype.int16, data := [4, 4, 4, 4, 4, 4, 4] }]
      (by decide) (by decide)).2⟩,
   ⟨by decide,
    (c10_write_cursor_stays_in_range.2
      { slots := [[[0]], [[0]], [[0]]], write_idx := 0 }
      [{ data := [[1]], pixel_format := PixelFormat.mono16 },
       { data := [[2]], pixel_format := PixelFormat.mono16 },
       { data := [[3]], pixel_format := PixelFormat.mono16 },
       { data := [[4]], pixel_format := PixelFormat.mono16 }]
      (by decide) (by decide)).2⟩⟩
